import Mathlib

/-!
Shallow embedding of the query-compilation and index-maintenance engine of
the python-stdnet repository (src/stdnet/orm/query.py and
src/stdnet/backends/base.py), together with theorems settling the frozen
claims about it.

Python values are modelled by `PyVal`, python dictionaries by association
lists in insertion order (`Dict`), python exceptions by `PyErr`, and the
mutable dict heap (needed to express frame properties of `QuerySet.filter`
and `QuerySet.exclude`) by `Heap`.
-/

/-- A python value: `None`, an integer, or a string.  (Scalar values are
all the claims need; a collection passed to an `__in` lookup is reachable
through the abstract `hashf` transformation.) -/
inductive PyVal where
  | pynone : PyVal
  | int (n : Int) : PyVal
  | str (s : String) : PyVal
deriving DecidableEq, Repr

/-- Python truthiness for the values we model: `None`, `0` and the empty
string are falsy. -/
def pyTruthy : PyVal → Bool
  | .pynone => false
  | .int n => decide (n ≠ 0)
  | .str s => decide (s ≠ "")

/-- A python dict, as an association list in insertion order. -/
abbrev Dict := List (String × PyVal)

/-- `d[k] = v` on a python dict: replace the value at the first
occurrence of `k`, keeping its position; append `(k, v)` when absent. -/
def dictSet : Dict → String → PyVal → Dict
  | [], k, v => [(k, v)]
  | (k1, v1) :: rest, k, v =>
      if k1 = k then (k, v) :: rest else (k1, v1) :: dictSet rest k v

/-- Dict lookup (`d.get(k)`): value at the first occurrence of `k`. -/
def dlookup : Dict → String → Option PyVal
  | [], _ => none
  | (k1, v1) :: rest, k => if k1 = k then some v1 else dlookup rest k

/-- `d.update(other)` on python dicts: iterate `other` in order and set
each of its entries into `d`. -/
def dictUpdate (d other : Dict) : Dict :=
  other.foldl (fun acc kv => dictSet acc kv.1 kv.2) d

deriving instance DecidableEq for Except

/-- The python exceptions raised by the embedded code. -/
inductive PyErr where
  | querySetError (msg : String) : PyErr
  | notImplementedError (msg : String) : PyErr
  | typeError : PyErr
  | attributeError : PyErr
  | fieldValueError (msg : String) : PyErr
deriving DecidableEq, Repr

/-- The python split of a name on the separator `__`, on character
lists: split on the leftmost
non-overlapping occurrences of the two-character separator `__`. -/
def splitSepAux : List Char → List Char → List (List Char)
  | [], acc => [acc.reverse]
  | '_' :: '_' :: rest, acc => acc.reverse :: splitSepAux rest []
  | c :: rest, acc => splitSepAux rest (c :: acc)

/-- The python split of a name on `__`, as used by
`QuerySet.aggregate`. -/
def splitName (s : String) : List String :=
  (splitSepAux s.toList []).map List.asString

/-- A field descriptor (`stdnet.orm.fields`): the `unique` and `index`
flags consulted by `QuerySet.aggregate`, with the `serialize` and `hash`
value transformations applied there. -/
structure FieldD where
  unique : Bool
  index : Bool
  serialize : PyVal → PyVal
  hashf : PyVal → PyVal

/-- Lookup in a name-to-field mapping (`meta.dfields` / `meta.fields`). -/
def flookup : List (String × FieldD) → String → Option FieldD
  | [], _ => none
  | (k1, f) :: rest, k => if k1 = k then some f else flookup rest k

/-- The model meta object: `dfields` (data fields, used for simple
lookups) and `fields` (all fields, used for `__in` lookups). -/
structure Meta where
  dfields : List (String × FieldD)
  fields : List (String × FieldD)

/-- The value returned by `QuerySet.aggregate`: either the `(name, value)`
pair produced by the unique short-circuit `result = name,value`, or the
dict of aggregated clauses. -/
inductive AggOut where
  | pair (name : String) (value : PyVal) : AggOut
  | dict (d : Dict) : AggOut
deriving DecidableEq, Repr

/-- One iteration of the loop in `QuerySet.aggregate` up to line 119:
split the predicate name on `__`, resolve the field and transform the
value. Returns the resolved field, the transformed value, and the new
`unique` flag (reassigned only by the single-part branch; the `__in`
branch leaves the flag it inherited from the previous iteration). -/
def aggStep (meta : Meta) (name : String) (value : PyVal) (unique : Bool) :
    Except PyErr (FieldD × PyVal × Bool) :=
  let names := splitName name
  if names.length = 1 then
    match flookup meta.dfields name with
    | none =>
        .error (.querySetError
          ("Could not filter. Field " ++ name ++ " not defined."))
    | some field => .ok (field, field.serialize value, field.unique)
  else if names.length = 2 ∧ names.getD 1 "" = "in" then
    match flookup meta.fields (names.getD 0 "") with
    | none =>
        .error (.querySetError
          ("Could not filter. Field " ++ names.getD 0 "" ++ " not defined."))
    | some field => .ok (field, field.hashf value, unique)
  else
    .error (.notImplementedError "Nested lookup is not yet available")

/-- The loop of `QuerySet.aggregate` (query.py lines 101-133), with the
carried state `(unique, result)`.  In filter mode a unique clause breaks
out of the loop returning the `(name, value)` pair with the unique flag
set; otherwise the clause is stored in the result dict (twice, as in
lines 122 and 128, which is idempotent) and iteration continues. -/
def aggregateAux (meta : Meta) (filt : Bool) :
    List (String × PyVal) → Bool → Dict → Except PyErr (Bool × AggOut)
  | [], unique, result => .ok (unique, .dict result)
  | (name, value) :: rest, unique, result =>
      match aggStep meta name value unique with
      | .error e => .error e
      | .ok (field, value, unique) =>
          if unique then
            let result := dictSet result name value
            if filt then
              .ok (true, .pair name value)
            else
              aggregateAux meta filt rest true (dictSet result name value)
          else if field.index then
            aggregateAux meta filt rest unique (dictSet result name value)
          else
            .error (.querySetError
              ("Field " ++ name ++ " is not an index. Cannot query."))

/-- `QuerySet.aggregate(kwargs, filter)`: run the loop from the initial
state `unique = False`, `result = {}`. -/
def aggregate (meta : Meta) (kwargs : List (String × PyVal)) (filt : Bool) :
    Except PyErr (Bool × AggOut) :=
  aggregateAux meta filt kwargs false []

/-- A heap of mutable python dicts, addressed by allocation order.
Needed because `QuerySet.filter` mutates the fresh `**kwargs` dict in
place (`kwargs.update(self.fargs)`) while the dicts held by the receiver
must stay untouched. -/
structure Heap where
  mem : Nat → Dict
  next : Nat

/-- Allocate a fresh dict, returning the new heap and its address. -/
def Heap.alloc (h : Heap) (d : Dict) : Heap × Nat :=
  ({ mem := fun a => if a = h.next then d else h.mem a, next := h.next + 1 },
   h.next)

/-- Overwrite the dict stored at address `a`. -/
def Heap.writeAt (h : Heap) (a : Nat) (d : Dict) : Heap :=
  { h with mem := fun b => if b = a then d else h.mem b }

/-- A model instance, identified abstractly. -/
structure ModelInstance where
  oid : Nat
deriving DecidableEq, Repr

/-- The id collection returned by the backend `cursor.query` call: either
the string `all` (every instance of the model) or a collection of ids. -/
inductive QueryIds where
  | all : QueryIds
  | idlist (l : List Nat) : QueryIds
deriving DecidableEq, Repr

/-- The backend cursor operations used by `QuerySet.buildquery` and
`QuerySet.get`: `get_object` (direct unique fetch), `query` (index-set
query over the aggregated clause dicts) and the hash-table get used by
`get` to load the single id of a one-element result. -/
structure Cursor where
  get_object : String → PyVal → ModelInstance
  query : AggOut → Option AggOut → Option (List Nat) → QueryIds
  hashget : Nat → ModelInstance

/-- The compiled query stored in `self.qset`: either the `svset` wrapper
around the single instance fetched by `cursor.get_object`, or the result
of `cursor.query`. -/
inductive Qset where
  | sv (r : ModelInstance) : Qset
  | qres (q : QueryIds) : Qset
deriving DecidableEq, Repr

/-- The `QuerySet` object (query.py lines 17-33).  `fargs` and `eargs`
hold heap addresses of python dicts, or `None`; `qset` and `seq` are the
`self.qset` and `self._seq` caches, `None` after `__init__`. -/
structure QuerySet where
  meta : Meta
  fargs : Option Nat
  eargs : Option Nat
  filter_sets : Option (List Nat)
  qset : Option Qset
  seq : Option (List ModelInstance)

/-- `QuerySet.__init__(meta, fargs, eargs, filter_sets)`: `self.qset`
and `self._seq` start as `None`. -/
def QuerySet.init (meta : Meta) (fargs eargs : Option Nat)
    (filter_sets : Option (List Nat)) : QuerySet :=
  { meta := meta, fargs := fargs, eargs := eargs,
    filter_sets := filter_sets, qset := none, seq := none }

/-- `QuerySet.filter(**kwargs)` (query.py lines 52-55): allocate the
fresh `kwargs` dict, run `kwargs.update(self.fargs)` (a `TypeError` when
`self.fargs` is `None`), and build the new QuerySet.  Returns the heap
after the call, the receiver after the call, and the result. -/
def QuerySet.filter (h : Heap) (qs : QuerySet) (kw : Dict) :
    Heap × QuerySet × Except PyErr QuerySet :=
  let (h1, ka) := h.alloc kw
  match qs.fargs with
  | none => (h1, qs, .error .typeError)
  | some fa =>
      let h2 := h1.writeAt ka (dictUpdate (h1.mem ka) (h1.mem fa))
      (h2, qs, .ok (QuerySet.init qs.meta (some ka) qs.eargs none))

/-- `QuerySet.exclude(**kwargs)` (query.py lines 57-60): symmetric to
`filter`, with `kwargs.update(self.eargs)`. -/
def QuerySet.exclude (h : Heap) (qs : QuerySet) (kw : Dict) :
    Heap × QuerySet × Except PyErr QuerySet :=
  let (h1, ka) := h.alloc kw
  match qs.eargs with
  | none => (h1, qs, .error .typeError)
  | some ea =>
      let h2 := h1.writeAt ka (dictUpdate (h1.mem ka) (h1.mem ea))
      (h2, qs, .ok (QuerySet.init qs.meta qs.fargs (some ka) none))

/-- `Manager.filter(**kwargs)` (query.py lines 199-200): a QuerySet with
`fargs = kwargs` and `eargs = None`. -/
def Manager.filter (h : Heap) (meta : Meta) (kw : Dict) : Heap × QuerySet :=
  let (h1, ka) := h.alloc kw
  (h1, QuerySet.init meta (some ka) none none)

/-- `Manager.exclude(**kwargs)` (query.py lines 202-203): a QuerySet with
`fargs = None` and `eargs = kwargs`. -/
def Manager.exclude (h : Heap) (meta : Meta) (kw : Dict) : Heap × QuerySet :=
  let (h1, ka) := h.alloc kw
  (h1, QuerySet.init meta none (some ka) none)

/-- `QuerySet.buildquery` (query.py lines 79-92), returning the computed
`self.qset`.  When `self.fargs` is `None` (an exclude-only QuerySet) the
call `self.aggregate(None)` fails with an `AttributeError` since `None`
has no `.items()`.  When the filter aggregation reports `unique`, the
query is the `svset` wrapper around `cursor.get_object(meta, fargs[0],
fargs[1])`; otherwise the exclude parameters are aggregated with
`filter=False` when `self.eargs` is truthy, and `cursor.query` runs. -/
def QuerySet.buildquery (c : Cursor) (h : Heap) (qs : QuerySet) :
    Except PyErr Qset :=
  match qs.qset with
  | some q => .ok q
  | none =>
    match qs.fargs with
    | none => .error .attributeError
    | some fa =>
      match aggregate qs.meta (h.mem fa) true with
      | .error e => .error e
      | .ok (unique, fres) =>
        if unique then
          match fres with
          | .pair n v => .ok (.sv (c.get_object n v))
          | .dict _ => .error .attributeError
        else
          match qs.eargs with
          | none => .ok (.qres (c.query fres none qs.filter_sets))
          | some ea =>
            if h.mem ea = [] then
              .ok (.qres (c.query fres none qs.filter_sets))
            else
              match aggregate qs.meta (h.mem ea) false with
              | .error e => .error e
              | .ok (_, eres) =>
                  .ok (.qres (c.query fres (some eres) qs.filter_sets))

/-- Python `len(self.qset)`: `svset.__len__` is the constant 1
(query.py lines 12-13); `len` of an id collection is its size; `len` of
the string `all` is 3. -/
def pyLen : Qset → Nat
  | .sv _ => 1
  | .qres .all => 3
  | .qres (.idlist l) => l.length

/-- The body of `QuerySet.get` (query.py lines 135-145) after
`buildquery`: when `len(self.qset) == 1`, return `self.qset.result` for
an `svset`, or load the single id through the meta hash table otherwise;
any other length raises the non-unique `QuerySetError`. -/
def QuerySet.getFrom (c : Cursor) (q : Qset) : Except PyErr ModelInstance :=
  if pyLen q = 1 then
    match q with
    | .sv r => .ok r
    | .qres (.idlist l) => .ok (c.hashget (l.headD 0))
    | .qres .all => .ok (c.hashget 0)
  else
    .error (.querySetError "Get query yielded non unique results")

/-- `QuerySet.get()`: build the query, then extract. -/
def QuerySet.get (c : Cursor) (h : Heap) (qs : QuerySet) :
    Except PyErr ModelInstance :=
  match QuerySet.buildquery c h qs with
  | .error e => .error e
  | .ok q => QuerySet.getFrom c q

/-- The slice of a model instance seen by `BackendDataServer.save_object`
(base.py lines 155-190): its `id` attribute, the result of
`obj.is_valid()`, and `json.dumps(obj.errors)`. -/
structure SObj where
  oid : PyVal
  valid : Bool
  errors : String
deriving DecidableEq, Repr

/-- A backend operation issued by `save_object`, in issue order:
the prior-snapshot read (`obj.__class__.objects.filter(id=obj.id)` with
`load_only`), the index clean-up (`_remove_indexes`), the object write
(`_save_object`) and the transaction commit. -/
inductive BOp where
  | priorLoad (oid : PyVal) : BOp
  | removeIndexes : BOp
  | saveObj : BOp
  | commitTrans : BOp
deriving DecidableEq, Repr

/-- `BackendDataServer.save_object(obj, transaction)` (base.py lines
155-190), returning the ordered list of backend operations issued and
the outcome.  `priorFound` abstracts whether the prior-snapshot load
finds a committed object; `pkSerialize` abstracts
`obj._meta.pk.serialize`.  Validation failure raises `FieldValueError`
with the json-dumped errors. -/
def save_object (priorFound : Bool) (pkSerialize : PyVal → PyVal)
    (obj : SObj) (haveTransaction : Bool) :
    List BOp × Except PyErr SObj :=
  let commit := !haveTransaction
  if !obj.valid then
    ([], .error (.fieldValueError obj.errors))
  else
    let (ops1, obj1) :=
      if pyTruthy obj.oid then
        (if priorFound then [BOp.priorLoad obj.oid, BOp.removeIndexes]
         else [BOp.priorLoad obj.oid], obj)
      else
        ([], { obj with oid := pkSerialize obj.oid })
    let ops2 := ops1 ++ [BOp.saveObj]
    (if commit then ops2 ++ [BOp.commitTrans] else ops2, .ok obj1)

/-- A python object reference seen by `M2MRelatedManager.add`: `addr` is
its identity (the `is` comparison), `cls` the name of its class (the
`isinstance` check against the declared related model) and `str` its
`__str__` (used in the error message). -/
structure PyObj where
  addr : Nat
  cls : String
  str : String
deriving DecidableEq, Repr

/-- The state of all many-to-many link sets, keyed by the address of the
owning object: `links a` is the set of addresses stored in the `st`
backend set of the object at `a`. -/
structure M2MState where
  links : Nat → List Nat

/-- `st.add(member)`: add a member to the link set of the object at
address `a` (a set: no duplicate is created). -/
def M2MState.addLink (st : M2MState) (a b : Nat) : M2MState :=
  { links := fun x =>
      if x = a then (if b ∈ st.links a then st.links a else st.links a ++ [b])
      else st.links x }

/-- `M2MRelatedManager.add(value)` (query.py lines 247-258): reject a
value whose class is not the declared related model; return unchanged
when `value is self.instance`; otherwise `self._add(value)` then
`related._add(self.instance)` on the reciprocal manager. -/
def m2mAdd (st : M2MState) (selfInst : PyObj) (toCls : String)
    (value : PyObj) : Except PyErr M2MState :=
  if value.cls ≠ toCls then
    .error (.fieldValueError (value.str ++ " is not an instance of " ++ toCls))
  else if value.addr = selfInst.addr then
    .ok st
  else
    .ok ((st.addLink selfInst.addr value.addr).addLink value.addr selfInst.addr)

/-- The slice of `BackendDataServer` seen by `isempty` (base.py lines
140-145): the list returned by `self.keys()`. -/
structure DataServer where
  keysList : List String

/-- `BackendDataServer.isempty()` (base.py lines 140-145): despite its
name and docstring, it returns `len(self.keys())`. -/
def DataServer.isempty (s : DataServer) : Nat :=
  s.keysList.length

/-! ### Concrete fixtures used by witnesses and counterexamples -/

/-- An indexed, non-unique field with identity transformations. -/
def tfield : FieldD :=
  { unique := false, index := true, serialize := fun v => v, hashf := fun v => v }

/-- A unique (and indexed) field with identity transformations. -/
def ufield : FieldD :=
  { unique := true, index := true, serialize := fun v => v, hashf := fun v => v }

/-- A meta with an indexed field `pv` and a unique field `u`. -/
def tmeta : Meta :=
  { dfields := [("pv", tfield), ("u", ufield)],
    fields := [("pv", tfield), ("u", ufield)] }

/-- The meta of the `NumericData` model of the spec scenario: indexed
float fields `pv`, `vega`, `delta`, `gamma`. -/
def numericMeta : Meta :=
  { dfields := [("pv", tfield), ("vega", tfield),
                ("delta", tfield), ("gamma", tfield)],
    fields := [("pv", tfield), ("vega", tfield),
               ("delta", tfield), ("gamma", tfield)] }

/-- A concrete backend cursor. -/
def wcursor : Cursor :=
  { get_object := fun _ _ => ⟨7⟩,
    query := fun _ _ _ => .idlist [3, 4],
    hashget := fun i => ⟨i⟩ }

/-- A concrete heap: dict 0 is `{pv: 5, u: 2}`, dict 1 is `{pv: 3}`. -/
def wheap : Heap :=
  { mem := fun a =>
      if a = 0 then [("pv", .int 5), ("u", .int 2)]
      else if a = 1 then [("pv", .int 3)] else [],
    next := 2 }

/-- A filter-only QuerySet over dict 0 of `wheap`. -/
def wqsFilter : QuerySet := QuerySet.init tmeta (some 0) none none

/-- A QuerySet with a unique filter predicate and a non-empty exclude
dict (dict 1 of `wheap`). -/
def wqsFilterExclude : QuerySet := QuerySet.init tmeta (some 0) (some 1) none

/-- A filter-only QuerySet whose single predicate is the indexed,
non-unique field `pv` (dict 1 of `wheap`). -/
def wqsPv : QuerySet := QuerySet.init tmeta (some 1) none none

/-- A heap whose dict 0 holds the range predicate `{pv__gt: 1}` of the
spec scenario. -/
def rangeHeap : Heap :=
  { mem := fun a => if a = 0 then [("pv__gt", .int 1)] else [], next := 1 }

/-- The QuerySet produced by `filter(pv__gt=1)` on `NumericData`. -/
def rangeQs : QuerySet := QuerySet.init numericMeta (some 0) none none

/-- A heap with a non-unique filter dict `{pv: 5}` (dict 0) and a
non-empty exclude dict `{pv: 3}` (dict 1). -/
def exHeap : Heap :=
  { mem := fun a =>
      if a = 0 then [("pv", .int 5)]
      else if a = 1 then [("pv", .int 3)] else [],
    next := 2 }

/-- A QuerySet with the non-unique filter dict 0 and exclude dict 1 of
`exHeap`. -/
def exQs : QuerySet := QuerySet.init tmeta (some 0) (some 1) none

/-! ### Helper lemmas -/

theorem dlookup_dictSet_self (d : Dict) (k : String) (v : PyVal) :
    dlookup (dictSet d k v) k = some v := by
  induction d with
  | nil => simp [dictSet, dlookup]
  | cons kv rest ih =>
      obtain ⟨k1, v1⟩ := kv
      by_cases h : k1 = k
      · simp [dictSet, h, dlookup]
      · simp [dictSet, h, dlookup, ih]

theorem dlookup_dictSet_ne (d : Dict) (k1 k : String) (v : PyVal)
    (h : k1 ≠ k) : dlookup (dictSet d k1 v) k = dlookup d k := by
  induction d with
  | nil => simp [dictSet, dlookup, h]
  | cons kv rest ih =>
      obtain ⟨k2, v2⟩ := kv
      by_cases h2 : k2 = k1
      · subst h2
        simp [dictSet, dlookup, h]
      · simp only [dictSet, if_neg h2, dlookup]
        split
        · rfl
        · exact ih

theorem dlookup_foldSet_frame (l : List (String × PyVal)) (d : Dict)
    (k : String) (h : ∀ kv ∈ l, kv.1 ≠ k) :
    dlookup (l.foldl (fun acc kv => dictSet acc kv.1 kv.2) d) k =
      dlookup d k := by
  induction l generalizing d with
  | nil => rfl
  | cons kv rest ih =>
      simp only [List.foldl_cons]
      rw [ih _ (fun x hx => h x (List.mem_cons_of_mem _ hx)),
        dlookup_dictSet_ne _ _ _ _ (h kv (List.mem_cons_self _ _))]

theorem dictUpdate_existing_wins (f : Dict) : ∀ (d : Dict) (k : String)
    (v : PyVal), dlookup f k = some v → (f.map Prod.fst).Nodup →
    dlookup (dictUpdate d f) k = some v := by
  induction f with
  | nil => intro d k v h _; simp [dlookup] at h
  | cons kv rest ih =>
      intro d k v hl hnd
      obtain ⟨k1, v1⟩ := kv
      rw [List.map_cons, List.nodup_cons] at hnd
      by_cases h : k1 = k
      · subst h
        have hv : v1 = v := by simpa [dlookup] using hl
        subst hv
        unfold dictUpdate
        simp only [List.foldl_cons]
        rw [dlookup_foldSet_frame]
        · exact dlookup_dictSet_self d k1 v1
        · intro x hx hxk
          exact hnd.1
            (hxk ▸ (List.mem_map_of_mem Prod.fst hx : x.1 ∈ rest.map Prod.fst))
      · simp only [dlookup, if_neg h] at hl
        unfold dictUpdate at *
        simp only [List.foldl_cons]
        exact ih (dictSet d k1 v1) k v hl hnd.2

theorem isSome_dlookup_dictSet (d : Dict) (k k2 : String) (v : PyVal)
    (h : (dlookup d k2).isSome) : (dlookup (dictSet d k v) k2).isSome := by
  by_cases hk : k = k2
  · subst hk
    rw [dlookup_dictSet_self]
    rfl
  · rw [dlookup_dictSet_ne d k k2 v hk]
    exact h

theorem aggregateAux_append (meta : Meta) (filt : Bool)
    (l m : List (String × PyVal)) : ∀ (u u2 : Bool) (r d : Dict),
    aggregateAux meta filt l u r = .ok (u2, .dict d) →
    aggregateAux meta filt (l ++ m) u r = aggregateAux meta filt m u2 d := by
  induction l with
  | nil =>
      intro u u2 r d h
      simp only [aggregateAux, Except.ok.injEq, Prod.mk.injEq,
        AggOut.dict.injEq] at h
      obtain ⟨hu, hd⟩ := h
      subst hu
      subst hd
      rfl
  | cons kv rest ih =>
      intro u u2 r d h
      obtain ⟨name, value⟩ := kv
      simp only [List.cons_append, aggregateAux] at h ⊢
      cases hstep : aggStep meta name value u with
      | error e =>
          rw [hstep] at h
          simp at h
      | ok t =>
          obtain ⟨field, v2, u3⟩ := t
          rw [hstep] at h
          cases u3 with
          | true =>
              cases filt with
              | true => simp at h
              | false =>
                  simp only at h ⊢
                  exact ih _ _ _ _ h
          | false =>
              simp only at h ⊢
              cases hidx : field.index with
              | true =>
                  rw [hidx] at h
                  simp only [hidx, if_true] at h ⊢
                  exact ih _ _ _ _ h
              | false =>
                  rw [hidx] at h
                  simp [hidx] at h

theorem isSome_dlookup_dictSet_self (d : Dict) (k : String) (v : PyVal) :
    (dlookup (dictSet d k v) k).isSome := by
  rw [dlookup_dictSet_self]
  rfl

theorem aggregateAux_false_full_mapping (meta : Meta)
    (l : List (String × PyVal)) : ∀ (u : Bool) (r : Dict) (p : Bool × AggOut),
    aggregateAux meta false l u r = .ok p →
    ∃ d, p.2 = .dict d ∧
      (∀ k, (dlookup r k).isSome → (dlookup d k).isSome) ∧
      (∀ kv ∈ l, (dlookup d kv.1).isSome) := by
  induction l with
  | nil =>
      intro u r p h
      simp only [aggregateAux, Except.ok.injEq] at h
      subst h
      exact ⟨r, rfl, fun _ hk => hk, by simp⟩
  | cons kv rest ih =>
      intro u r p h
      obtain ⟨name, value⟩ := kv
      simp only [aggregateAux] at h
      cases hstep : aggStep meta name value u with
      | error e =>
          rw [hstep] at h
          simp at h
      | ok t =>
          obtain ⟨field, v2, u3⟩ := t
          rw [hstep] at h
          cases u3 with
          | true =>
              simp only at h
              obtain ⟨d, hd, hmono, hl⟩ := ih _ _ _ h
              refine ⟨d, hd, ?_, ?_⟩
              · intro k hk
                exact hmono k
                  (isSome_dlookup_dictSet _ _ _ _
                    (isSome_dlookup_dictSet _ _ _ _ hk))
              · intro kv2 hkv2
                rcases List.mem_cons.1 hkv2 with hh | ht
                · subst hh
                  exact hmono name (isSome_dlookup_dictSet_self _ _ _)
                · exact hl kv2 ht
          | false =>
              simp only at h
              cases hidx : field.index with
              | true =>
                  rw [hidx] at h
                  simp only [if_true] at h
                  obtain ⟨d, hd, hmono, hl⟩ := ih _ _ _ h
                  refine ⟨d, hd, ?_, ?_⟩
                  · intro k hk
                    exact hmono k (isSome_dlookup_dictSet _ _ _ _ hk)
                  · intro kv2 hkv2
                    rcases List.mem_cons.1 hkv2 with hh | ht
                    · subst hh
                      exact hmono name (isSome_dlookup_dictSet_self _ _ _)
                    · exact hl kv2 ht
              | false =>
                  rw [hidx] at h
                  simp at h

theorem mem_addLink_self (st : M2MState) (a b : Nat) :
    b ∈ (st.addLink a b).links a := by
  by_cases hb : b ∈ st.links a
  · simp [M2MState.addLink, hb]
  · simp [M2MState.addLink, hb]

theorem addLink_other (st : M2MState) (a b x : Nat) (hx : x ≠ a) :
    (st.addLink a b).links x = st.links x := by
  simp [M2MState.addLink, hx]

/-! ### Claim theorems -/

/-- Claim C10: `BackendDataServer.isempty()` returns the number of keys in
the database, a value that is zero exactly when the database has no keys
(so it is truthy exactly when the database is non-empty, the opposite
polarity of its name and docstring). -/
theorem c10_isempty_returns_key_count (s : DataServer) :
    DataServer.isempty s = s.keysList.length ∧
    (DataServer.isempty s = 0 ↔ s.keysList = []) :=
  ⟨rfl, List.length_eq_zero⟩

/-- Claim C9: chaining `filter` and `exclude` across each other fails with
a `TypeError`: a QuerySet produced by `Manager.exclude` has `fargs =
None`, so `.filter(...)` runs `kwargs.update(None)`; symmetrically a
QuerySet produced by `Manager.filter` has `eargs = None`, so
`.exclude(...)` fails the same way. -/
theorem c9_cross_chaining_raises_type_error (h : Heap) (meta : Meta)
    (kw1 kw2 : Dict) :
    (QuerySet.filter (Manager.exclude h meta kw1).1
        (Manager.exclude h meta kw1).2 kw2).2.2 = .error .typeError ∧
    (QuerySet.exclude (Manager.filter h meta kw1).1
        (Manager.filter h meta kw1).2 kw2).2.2 = .error .typeError := by
  exact ⟨rfl, rfl⟩

/-- Claim C5: `QuerySet.filter` and `QuerySet.exclude` leave the receiver
completely unchanged: the receiver object (with its `fargs`, `eargs`,
`qset` and `_seq` attributes) is returned as it was, and every dict
already allocated in the heap before the call, in particular the
`fargs` and `eargs` dicts of the receiver, still holds the same
entries. -/
theorem c5_filter_exclude_never_mutate_receiver (h : Heap) (qs : QuerySet)
    (kw : Dict) :
    ((QuerySet.filter h qs kw).2.1 = qs ∧
      ∀ a, a < h.next → ((QuerySet.filter h qs kw).1).mem a = h.mem a) ∧
    ((QuerySet.exclude h qs kw).2.1 = qs ∧
      ∀ a, a < h.next → ((QuerySet.exclude h qs kw).1).mem a = h.mem a) := by
  refine ⟨⟨?_, ?_⟩, ⟨?_, ?_⟩⟩
  · cases hf : qs.fargs <;> simp [QuerySet.filter, Heap.alloc, hf]
  · intro a ha
    cases hf : qs.fargs <;>
      simp [QuerySet.filter, Heap.alloc, Heap.writeAt, hf, Nat.ne_of_lt ha]
  · cases he : qs.eargs <;> simp [QuerySet.exclude, Heap.alloc, he]
  · intro a ha
    cases he : qs.eargs <;>
      simp [QuerySet.exclude, Heap.alloc, Heap.writeAt, he, Nat.ne_of_lt ha]

/-- Witness for C5 at a concrete heap, QuerySet and predicate dict. -/
theorem c5_witness :
    0 < wheap.next ∧
    ((QuerySet.filter wheap wqsFilter [("pv", .int 9)]).1).mem 0 =
      wheap.mem 0 :=
  ⟨by decide,
   (c5_filter_exclude_never_mutate_receiver wheap wqsFilter
      [("pv", .int 9)]).1.2 0 (by decide)⟩

/-- Claim C3: `BackendDataServer.save_object` validates the instance
before any backend operation: an invalid instance raises
`FieldValueError` with the instance errors and the list of issued backend
operations is empty, so no prior-snapshot read, no index removal, no
object write and no transaction commit happens. -/
theorem c3_save_object_invalid_raises_before_backend_ops
    (priorFound : Bool) (pkSerialize : PyVal → PyVal) (obj : SObj)
    (haveTransaction : Bool) (hinv : obj.valid = false) :
    save_object priorFound pkSerialize obj haveTransaction =
      ([], .error (.fieldValueError obj.errors)) := by
  unfold save_object
  rw [hinv]
  rfl

/-- Witness for C3 at a concrete invalid instance. -/
theorem c3_witness :
    save_object false (fun v => v)
        { oid := .pynone, valid := false, errors := "field error" } true =
      ([], .error (.fieldValueError "field error")) :=
  c3_save_object_invalid_raises_before_backend_ops false (fun v => v)
    { oid := .pynone, valid := false, errors := "field error" } true rfl

/-- Claim C4: `M2MRelatedManager.add(value)` raises `FieldValueError`
when `value` is not an instance of the declared related model; is a
no-op when `value` is the owning instance itself; and otherwise adds
`value` to the link set of the owning instance and the owning instance to the
reciprocal link set of `value`, so both sides are updated. -/
theorem c4_m2m_add_updates_both_sides (st : M2MState) (selfInst : PyObj)
    (toCls : String) (value : PyObj) :
    (value.cls ≠ toCls →
      m2mAdd st selfInst toCls value =
        .error (.fieldValueError
          (value.str ++ " is not an instance of " ++ toCls))) ∧
    (value.cls = toCls → value.addr = selfInst.addr →
      m2mAdd st selfInst toCls value = .ok st) ∧
    (value.cls = toCls → value.addr ≠ selfInst.addr →
      m2mAdd st selfInst toCls value =
        .ok ((st.addLink selfInst.addr value.addr).addLink value.addr
              selfInst.addr) ∧
      value.addr ∈
        ((st.addLink selfInst.addr value.addr).addLink value.addr
            selfInst.addr).links selfInst.addr ∧
      selfInst.addr ∈
        ((st.addLink selfInst.addr value.addr).addLink value.addr
            selfInst.addr).links value.addr) := by
  refine ⟨?_, ?_, ?_⟩
  · intro h
    simp [m2mAdd, h]
  · intro h1 h2
    simp [m2mAdd, h1, h2]
  · intro h1 h2
    refine ⟨by simp [m2mAdd, h1, h2], ?_, ?_⟩
    · rw [addLink_other _ _ _ _ (Ne.symm h2)]
      exact mem_addLink_self st selfInst.addr value.addr
    · exact mem_addLink_self _ value.addr selfInst.addr

/-- Witness for C4: concrete objects `a` (address 1) and `b` (address 2)
of class `M`, a wrong-class value, the self-add no-op, and the
double-sided update. -/
theorem c4_witness :
    (m2mAdd ⟨fun _ => []⟩ ⟨1, "M", "a"⟩ "M" ⟨2, "N", "b"⟩ =
      .error (.fieldValueError "b is not an instance of M")) ∧
    (m2mAdd ⟨fun _ => []⟩ ⟨1, "M", "a"⟩ "M" ⟨1, "M", "a"⟩ =
      .ok ⟨fun _ => []⟩) ∧
    (2 ∈ (((M2MState.addLink ⟨fun _ => []⟩ 1 2)).addLink 2 1).links 1 ∧
     1 ∈ (((M2MState.addLink ⟨fun _ => []⟩ 1 2)).addLink 2 1).links 2) :=
  ⟨(c4_m2m_add_updates_both_sides ⟨fun _ => []⟩ ⟨1, "M", "a"⟩ "M"
      ⟨2, "N", "b"⟩).1 (by decide),
   (c4_m2m_add_updates_both_sides ⟨fun _ => []⟩ ⟨1, "M", "a"⟩ "M"
      ⟨1, "M", "a"⟩).2.1 rfl rfl,
   ((c4_m2m_add_updates_both_sides ⟨fun _ => []⟩ ⟨1, "M", "a"⟩ "M"
      ⟨2, "M", "b"⟩).2.2 rfl (by decide)).2⟩

/-- Claim C6: on key collision, the existing predicates win:
`filter`/`exclude` run `kwargs.update(self.fargs)` on the fresh keyword
dict, so an existing binding of a key in `fargs` (resp. `eargs`)
overrides the newly supplied value for that key in the resulting
QuerySet. -/
theorem c6_existing_predicates_win_on_collision (h : Heap) (qs : QuerySet)
    (kw : Dict) (k : String) (v w : PyVal) :
    (∀ fa, qs.fargs = some fa → fa < h.next →
      dlookup (h.mem fa) k = some v → dlookup kw k = some w →
      ((h.mem fa).map Prod.fst).Nodup →
      (QuerySet.filter h qs kw).2.2 =
        .ok (QuerySet.init qs.meta (some h.next) qs.eargs none) ∧
      dlookup (((QuerySet.filter h qs kw).1).mem h.next) k = some v) ∧
    (∀ ea, qs.eargs = some ea → ea < h.next →
      dlookup (h.mem ea) k = some v → dlookup kw k = some w →
      ((h.mem ea).map Prod.fst).Nodup →
      (QuerySet.exclude h qs kw).2.2 =
        .ok (QuerySet.init qs.meta qs.fargs (some h.next) none) ∧
      dlookup (((QuerySet.exclude h qs kw).1).mem h.next) k = some v) := by
  constructor
  · intro fa hfa hlt hv _ hnd
    refine ⟨?_, ?_⟩
    · simp [QuerySet.filter, Heap.alloc, hfa]
    · simp only [QuerySet.filter, Heap.alloc, Heap.writeAt, hfa,
        if_pos rfl, Nat.ne_of_lt hlt, if_false, if_neg (Nat.ne_of_lt hlt)]
      exact dictUpdate_existing_wins (h.mem fa) kw k v hv hnd
  · intro ea hea hlt hv _ hnd
    refine ⟨?_, ?_⟩
    · simp [QuerySet.exclude, Heap.alloc, hea]
    · simp only [QuerySet.exclude, Heap.alloc, Heap.writeAt, hea,
        if_pos rfl, Nat.ne_of_lt hlt, if_false, if_neg (Nat.ne_of_lt hlt)]
      exact dictUpdate_existing_wins (h.mem ea) kw k v hv hnd

/-- Witness for C6: filtering again on `pv` keeps the existing value 5
from the receiver and discards the new value 9. -/
theorem c6_witness :
    (QuerySet.filter wheap wqsFilter [("pv", .int 9)]).2.2 =
      .ok (QuerySet.init tmeta (some 2) none none) ∧
    dlookup (((QuerySet.filter wheap wqsFilter [("pv", .int 9)]).1).mem 2)
      "pv" = some (.int 5) :=
  (c6_existing_predicates_win_on_collision wheap wqsFilter
      [("pv", .int 9)] "pv" (.int 5) (.int 9)).1 0 rfl (by decide)
    (by decide) (by decide) (by decide)

/-- Claim C8: `QuerySet.get()` returns the single matched instance when
the compiled query resolves to exactly one result (the `svset` wrapper of
a unique fetch, or a one-element id collection), and raises the
QuerySetError `Get query yielded non unique results` whenever the number
of matches differs from one. -/
theorem c8_get_requires_exactly_one_match (c : Cursor) (h : Heap)
    (qs : QuerySet) (q : Qset)
    (hb : QuerySet.buildquery c h qs = .ok q) :
    (∀ r, q = .sv r → QuerySet.get c h qs = .ok r) ∧
    (∀ l, q = .qres (.idlist l) →
      QuerySet.get c h qs =
        if l.length = 1 then .ok (c.hashget (l.headD 0))
        else .error
          (.querySetError "Get query yielded non unique results")) := by
  constructor
  · intro r hq
    subst hq
    simp [QuerySet.get, hb, QuerySet.getFrom, pyLen]
  · intro l hq
    subst hq
    simp only [QuerySet.get, hb]
    by_cases h1 : l.length = 1
    · simp [QuerySet.getFrom, pyLen, h1]
    · simp [QuerySet.getFrom, pyLen, h1]

/-- Witness for C8: a query resolving to the two ids `[3, 4]` makes
`get()` raise the non-unique error. -/
theorem c8_witness :
    QuerySet.get wcursor wheap wqsPv =
      .error (.querySetError "Get query yielded non unique results") := by
  have hb : QuerySet.buildquery wcursor wheap wqsPv =
      .ok (.qres (.idlist [3, 4])) := by decide
  have h2 := (c8_get_requires_exactly_one_match wcursor wheap wqsPv
      (.qres (.idlist [3, 4])) hb).2 [3, 4] rfl
  simpa using h2

/-- Claim C1: when the filter predicates hold a single-part clause on a
unique field, and the clauses before it compile without error and without
a unique hit, `QuerySet.aggregate` (filter mode) stops at that first
unique clause, returning the `(name, serialized value)` pair with the
unique flag set, and `buildquery` answers with the `svset` wrapper of the
direct `cursor.get_object` fetch, bypassing `cursor.query` entirely,
whatever predicates follow the unique clause and whatever the exclude
parameters are. -/
theorem c1_unique_clause_short_circuits_to_get_object
    (c : Cursor) (h : Heap) (qs : QuerySet) (fa : Nat)
    (pre rest : List (String × PyVal)) (name : String) (value : PyVal)
    (d : Dict) (f : FieldD)
    (hq : qs.qset = none) (hfa : qs.fargs = some fa)
    (hmem : h.mem fa = pre ++ (name, value) :: rest)
    (hpre : aggregateAux qs.meta true pre false [] = .ok (false, .dict d))
    (hsplit : (splitName name).length = 1)
    (hfield : flookup qs.meta.dfields name = some f)
    (huniq : f.unique = true) :
    aggregate qs.meta (h.mem fa) true =
      .ok (true, .pair name (f.serialize value)) ∧
    QuerySet.buildquery c h qs =
      .ok (.sv (c.get_object name (f.serialize value))) := by
  have hstep : aggStep qs.meta name value false =
      .ok (f, f.serialize value, f.unique) := by
    simp only [aggStep]
    rw [if_pos hsplit, hfield]
  have hagg : aggregate qs.meta (h.mem fa) true =
      .ok (true, .pair name (f.serialize value)) := by
    unfold aggregate
    rw [hmem,
      aggregateAux_append qs.meta true pre ((name, value) :: rest)
        false false [] d hpre]
    simp [aggregateAux, hstep, huniq]
  refine ⟨hagg, ?_⟩
  simp [QuerySet.buildquery, hq, hfa, hagg]

/-- Witness for C1: `{pv: 5, u: 2}` with unique field `u` short-circuits
to the `get_object` fetch even though `pv` is also present. -/
theorem c1_witness :
    aggregate tmeta [("pv", .int 5), ("u", .int 2)] true =
      .ok (true, .pair "u" (.int 2)) ∧
    QuerySet.buildquery wcursor wheap wqsFilter = .ok (.sv ⟨7⟩) :=
  c1_unique_clause_short_circuits_to_get_object wcursor wheap wqsFilter 0
    [("pv", .int 5)] [] "u" (.int 2) [("pv", .int 5)] ufield
    rfl rfl (by decide) (by decide) (by decide) rfl rfl

/-- Claim C2 (code evidence): range lookups are rejected by the query
compiler of this source tree.  `filter(pv__gt=1)` and
`filter(pv__ge=-2, pv__lt=3)` on the `NumericData` meta do not produce
the claimed result sets: `QuerySet.aggregate` raises
`NotImplementedError` on every two-part lookup other than `__in`
(query.py lines 117-119), so materializing either filter raises instead
of yielding instances. -/
theorem c2_range_lookups_raise_not_implemented :
    aggregate numericMeta [("pv__gt", .int 1)] true =
      .error (.notImplementedError "Nested lookup is not yet available") ∧
    aggregate numericMeta
        [("pv__ge", .int (-2)), ("pv__lt", .int 3)] true =
      .error (.notImplementedError "Nested lookup is not yet available") ∧
    QuerySet.buildquery wcursor rangeHeap rangeQs =
      .error (.notImplementedError "Nested lookup is not yet available") :=
  ⟨by decide, by decide, by decide⟩

/-- Counterexample to claim C7 as stated: a QuerySet whose exclude dict
`{pv: 3}` is non-empty, but whose filter dict holds the unique clause
`u = 2`, makes `buildquery` answer the `svset` of the direct
`cursor.get_object` fetch: the exclusion predicates are never aggregated
and never passed to `cursor.query`. -/
theorem c7_counterexample :
    wheap.mem 1 ≠ [] ∧
    wqsFilterExclude.eargs = some 1 ∧
    QuerySet.buildquery wcursor wheap wqsFilterExclude =
      .ok (.sv ⟨7⟩) :=
  ⟨by decide, rfl, by decide⟩

/-- Claim C7 (amended): exclusion aggregation (`filter=False`) never
breaks out of the predicate loop: on success it returns the full dict of
clauses, one entry per supplied predicate.  And whenever `buildquery`
reaches the non-unique path (the filter aggregation reports no unique
hit) with a truthy exclude dict, the aggregated exclusions are passed to
the general `cursor.query` call, never to `cursor.get_object`, even when
an excluded field is declared unique. -/
theorem c7_exclusions_never_short_circuit
    (meta : Meta) (l : List (String × PyVal)) (u : Bool) (r : Dict)
    (p : Bool × AggOut) (c : Cursor) (h : Heap) (qs : QuerySet)
    (fa ea : Nat) (fres eres : AggOut) (eu : Bool) :
    (aggregateAux meta false l u r = .ok p →
      ∃ d, p.2 = .dict d ∧ ∀ kv ∈ l, (dlookup d kv.1).isSome) ∧
    (qs.qset = none → qs.fargs = some fa →
      aggregate qs.meta (h.mem fa) true = .ok (false, fres) →
      qs.eargs = some ea → h.mem ea ≠ [] →
      aggregate qs.meta (h.mem ea) false = .ok (eu, eres) →
      QuerySet.buildquery c h qs =
        .ok (.qres (c.query fres (some eres) qs.filter_sets))) := by
  constructor
  · intro hagg
    obtain ⟨d, hd, _, hl⟩ :=
      aggregateAux_false_full_mapping meta l u r p hagg
    exact ⟨d, hd, hl⟩
  · intro hq hfa hf he hne hea
    simp only [QuerySet.buildquery, hq, hfa, hf, he, hea]
    simp [hne]

/-- Witness for C7 (amended): the exclude dict `{pv: 3}` aggregates to
the full one-entry mapping, and a non-unique filter with that exclude
dict reaches `cursor.query` with the aggregated exclusions. -/
theorem c7_witness :
    (∃ d, (AggOut.dict [("pv", PyVal.int 3)]) = .dict d ∧
      ∀ kv ∈ [("pv", PyVal.int 3)], (dlookup d kv.1).isSome) ∧
    QuerySet.buildquery wcursor exHeap exQs =
      .ok (.qres (wcursor.query (.dict [("pv", .int 5)])
        (some (.dict [("pv", .int 3)])) none)) := by
  constructor
  · exact (c7_exclusions_never_short_circuit tmeta [("pv", .int 3)]
      false [] (false, .dict [("pv", .int 3)]) wcursor exHeap exQs 0 1
      (.dict [("pv", .int 5)]) (.dict [("pv", .int 3)]) false).1 (by decide)
  · exact (c7_exclusions_never_short_circuit tmeta [("pv", .int 3)]
      false [] (false, .dict [("pv", .int 3)]) wcursor exHeap exQs 0 1
      (.dict [("pv", .int 5)]) (.dict [("pv", .int 3)]) false).2 rfl rfl
      (by decide) rfl (by decide) (by decide)
